import Mathlib

/-!
# Verification of the Arc Testnet dapp transaction orchestration core

Shallow embedding of `src/frontend/src/ui/App.tsx`: the connect flow, the
network reconciler (`ensureArcNetwork`), the six busy-gated actions
(`deployNFT`, `deployToken`, `mintNft`, `mintToken`, `sendUSDC`,
`swapUSDCtoESC`), the prepend-only activity log, and the `EscbaseToken`
contract's swap rate.

Wallet/provider interactions are modelled by explicit outcome environments
(`NetEnv`, `ConnectEnv`, `ChainEnv`): each awaited provider or chain step is a
field holding the value the step would resolve or reject with.  Each embedded
operation returns the successor application state together with the ordered
list of provider requests it issued, so "no RPC call is issued" is the
statement that this list is empty.
-/

set_option maxRecDepth 4000

/-- Entry kinds of the activity log (`LogItem.type` in the source). -/
inductive LogKind
  | info
  | success
  | error
deriving DecidableEq, Repr

/-- `LogItem` from the source: `{ type; message; href? }`. -/
structure LogItem where
  kind : LogKind
  message : String
  href : Option String
deriving DecidableEq, Repr

/-- `ARC_CHAIN_ID_HEX = '0x4cef52'` (chain 5042002). -/
def ARC_CHAIN_ID_HEX : String := "0x4cef52"

/-- The network descriptor shape passed to `wallet_addEthereumChain`. -/
structure NetworkParams where
  chainId : String
  chainName : String
  currencyName : String
  currencySymbol : String
  currencyDecimals : Nat
  rpcUrls : List String
  blockExplorerUrls : List String
deriving DecidableEq, Repr

/-- `ARC_PARAMS` from the source: the full Arc Testnet descriptor. -/
def ARC_PARAMS : NetworkParams :=
  { chainId := ARC_CHAIN_ID_HEX
    chainName := "Arc Testnet"
    currencyName := "USDC"
    currencySymbol := "USDC"
    currencyDecimals := 18
    rpcUrls := ["https://rpc.testnet.arc.network"]
    blockExplorerUrls := ["https://testnet.arcscan.app"] }

/-- A thrown JavaScript error value as `getErrorMessage` probes it:
optional numeric `code`, optional `message`, optional ethers `shortMessage`,
and the `String(e)` fallback rendering. -/
structure JsError where
  code : Option Int
  message : Option String
  shortMessage : Option String
  stringRepr : String
deriving DecidableEq, Repr

/-- JavaScript `a || b` on an optional string: a missing or empty string is
falsy and falls through to the default. -/
def strOr (o : Option String) (dflt : String) : String :=
  match o with
  | some s => if s = "" then dflt else s
  | none => dflt

/-- `need` occurs as a contiguous run somewhere in `hay`. -/
def subList (need hay : List Char) : Bool :=
  match hay with
  | [] => need.isEmpty
  | _ :: t => need.isPrefixOf hay || subList need t

/-- JavaScript `hay.includes(need)` on strings. -/
def containsSub (hay need : String) : Bool :=
  subList need.data hay.data

/-- ASCII lowercase of one character, as `toLowerCase` acts on the hex chain
identifiers compared here. -/
def lowerChar (c : Char) : Char :=
  if 65 ≤ c.toNat ∧ c.toNat ≤ 90 then Char.ofNat (c.toNat + 32) else c

/-- `s.toLowerCase()` on the ASCII hex strings this code compares. -/
def lowerStr (s : String) : String :=
  String.mk (s.data.map lowerChar)

/-- `e?.message?.includes(needle)` with a missing message being falsy. -/
def msgIncludes (e : JsError) (needle : String) : Bool :=
  match e.message with
  | some m => containsSub m needle
  | none => false

/-- The truncation in `getErrorMessage`:
`msg.length > 180 ? msg.slice(0, 180) + '…' : msg`. -/
def truncateMsg (msg : String) : String :=
  if msg.length > 180 then String.mk (msg.data.take 180) ++ "…" else msg

/-- `getErrorMessage` from the source.  A JS-falsy error value is modelled as
`none`. -/
def getErrorMessage (e : Option JsError) : String :=
  match e with
  | none => "Unknown error"
  | some err =>
    if err.code = some 4001 || msgIncludes err "ACTION_REJECTED" then
      "User rejected in MetaMask"
    else
      truncateMsg (strOr err.shortMessage (strOr err.message err.stringRepr))

/-- `addressLink` from the source. -/
def addressLink (addr : String) : String :=
  "https://testnet.arcscan.app/address/" ++ addr

/-- `txLink` from the source. -/
def txLink (hash : String) : String :=
  "https://testnet.arcscan.app/tx/" ++ hash

/-- Provider requests the embedded code can issue, in issue order.
`chainIdRead` is the side-effect-free `eth_chainId` read, `readCall` covers
the read-only `owner()` and balance fetches, `txSubmit` a transaction
submission (deployment, contract call or native transfer). -/
inductive RpcCall
  | requestAccounts
  | chainIdRead
  | switchChain (chainId : String)
  | addChain (params : NetworkParams)
  | txSubmit
  | readCall
deriving DecidableEq, Repr

/-- Resolutions of the four provider requests `ensureArcNetwork` can await:
the `eth_chainId` read, the first `wallet_switchEthereumChain`, the
`wallet_addEthereumChain`, and the retry switch. -/
structure NetEnv where
  chainIdResult : Except JsError String
  switchResult1 : Except JsError Unit
  addResult : Except JsError Unit
  switchResult2 : Except JsError Unit

/-- The unrecognized-chain test from the source:
`err.code === 4902 || err?.message?.includes('Unrecognized chain')`. -/
def isUnrecognizedChainErr (err : JsError) : Bool :=
  err.code = some 4902 || msgIncludes err "Unrecognized chain"

/-- The error entry `ensureArcNetwork` pushes on failure:
`Failed to switch to Arc Testnet: ${e?.message || 'unknown error'}`. -/
def switchFailEntry (e : JsError) : LogItem :=
  { kind := .error
    message := "Failed to switch to Arc Testnet: " ++ strOr e.message "unknown error"
    href := none }

/-- Result of `ensureArcNetwork`: the returned boolean, the provider requests
issued in order, and the log entries pushed (most recent first). -/
structure EnsureResult where
  ok : Bool
  rpc : List RpcCall
  logAdds : List LogItem
deriving DecidableEq, Repr

/-- `ensureArcNetwork` from the source.  Reads the chain id; if it already
matches (after `toLowerCase`) returns true with no further request; otherwise
requests a switch, and on the provider's unrecognized-chain error adds the
network and retries the switch once.  Any other failure (or a failure of the
add or retry) is caught by the outer handler, logged, and returns false. -/
def ensureArcNetwork (env : NetEnv) : EnsureResult :=
  match env.chainIdResult with
  | .error e =>
    { ok := false, rpc := [.chainIdRead], logAdds := [switchFailEntry e] }
  | .ok current =>
    if lowerStr current = ARC_CHAIN_ID_HEX then
      { ok := true, rpc := [.chainIdRead], logAdds := [] }
    else
      match env.switchResult1 with
      | .ok _ =>
        { ok := true
          rpc := [.chainIdRead, .switchChain ARC_CHAIN_ID_HEX]
          logAdds := [] }
      | .error err =>
        if isUnrecognizedChainErr err then
          match env.addResult with
          | .ok _ =>
            match env.switchResult2 with
            | .ok _ =>
              { ok := true
                rpc := [.chainIdRead, .switchChain ARC_CHAIN_ID_HEX,
                        .addChain ARC_PARAMS, .switchChain ARC_CHAIN_ID_HEX]
                logAdds := [] }
            | .error e2 =>
              { ok := false
                rpc := [.chainIdRead, .switchChain ARC_CHAIN_ID_HEX,
                        .addChain ARC_PARAMS, .switchChain ARC_CHAIN_ID_HEX]
                logAdds := [switchFailEntry e2] }
          | .error e3 =>
            { ok := false
              rpc := [.chainIdRead, .switchChain ARC_CHAIN_ID_HEX,
                      .addChain ARC_PARAMS]
              logAdds := [switchFailEntry e3] }
        else
          { ok := false
            rpc := [.chainIdRead, .switchChain ARC_CHAIN_ID_HEX]
            logAdds := [switchFailEntry err] }

/-- The React state of `App`: `provider` records whether a `BrowserProvider`
has been stored (the session gate every action checks), the rest are the
`useState` hooks in declaration order. -/
structure AppState where
  provider : Bool
  signerAddress : String
  busy : Bool
  deployedNft : Option String
  deployedToken : Option String
  logs : List LogItem
  nativeBalance : String
  sendRecipient : String
  sendAmount : String
  swapAmount : String
deriving DecidableEq, Repr

/-- `pushLog`: prepend the entry to the log. -/
def pushLog (s : AppState) (item : LogItem) : AppState :=
  { s with logs := item :: s.logs }

/-- The error entry every action's catch block pushes:
`pushLog({ type: 'error', message: getErrorMessage(e) })`. -/
def errorEntry (e : JsError) : LogItem :=
  { kind := .error, message := getErrorMessage (some e), href := none }

/-- Model of the external `ethers.formatUnits(value, 18)` display helper
(integer smallest units rendered as a decimal string); claims only observe
whether the displayed balance changed, never this string's exact shape. -/
def formatUnits18 (n : Nat) : String :=
  toString (n / 10 ^ 18) ++ "." ++ toString (n % 10 ^ 18)

/-- `parseUnits('100', 18)`: the fixed token mint amount. -/
def mintTokenAmount : Nat := 100 * 10 ^ 18

/-- JS `addr.slice(0, 6) + '…' + addr.slice(-4)` used in the send success
message. -/
def shortAddr (a : String) : String :=
  String.mk (a.data.take 6) ++ "…" ++ String.mk (a.data.drop (a.data.length - 4))

/-- Resolutions for every awaited step of the `connect` flow, in program
order: the injected-provider presence test, `eth_requestAccounts`, the
network reconciliation steps, `getSigner` resolving, `getAddress`, and the
balance read. -/
structure ConnectEnv where
  hasEthereum : Bool
  requestAccountsResult : Except JsError Unit
  net : NetEnv
  getSignerResult : Except JsError Unit
  getAddressResult : Except JsError String
  balanceResult : Except JsError Nat

/-- Result of `connect`: successor state, issued requests, and the error that
escaped the function uncaught, if any (no try/catch encloses
`eth_requestAccounts`, `getSigner` or `getAddress` in the source). -/
structure ConnectResult where
  state : AppState
  rpc : List RpcCall
  uncaught : Option JsError
deriving DecidableEq, Repr

/-- The success entry `connect` pushes at its end. -/
def connectedEntry : LogItem :=
  { kind := .success, message := "Wallet connected and on Arc Testnet.", href := none }

/-- `connect` from the source.  No provider: alert only, nothing else.
`eth_requestAccounts` is awaited outside any try/catch, so its rejection
escapes with the state untouched.  Reconciliation failure returns after the
reconciler's own error log entry, without storing the provider.  The balance
read sits in its own `try {} catch {}`: its failure is swallowed.  Finally
the success entry is pushed. -/
def connect (s : AppState) (env : ConnectEnv) : ConnectResult :=
  if !env.hasEthereum then
    { state := s, rpc := [], uncaught := none }
  else
    match env.requestAccountsResult with
    | .error e => { state := s, rpc := [.requestAccounts], uncaught := some e }
    | .ok _ =>
      let er := ensureArcNetwork env.net
      let s1 : AppState := { s with logs := er.logAdds ++ s.logs }
      if !er.ok then
        { state := s1, rpc := .requestAccounts :: er.rpc, uncaught := none }
      else
        match env.getSignerResult with
        | .error e =>
          { state := s1, rpc := .requestAccounts :: er.rpc, uncaught := some e }
        | .ok _ =>
          match env.getAddressResult with
          | .error e =>
            { state := { s1 with provider := true }
              rpc := .requestAccounts :: er.rpc
              uncaught := some e }
          | .ok addr =>
            let s2 : AppState := { s1 with provider := true, signerAddress := addr }
            let s3 : AppState :=
              match env.balanceResult with
              | .ok bal => { s2 with nativeBalance := formatUnits18 bal }
              | .error _ => s2
            { state := pushLog s3 connectedEntry
              rpc := .requestAccounts :: er.rpc ++ [.readCall]
              uncaught := none }

/-- Resolutions for every awaited chain step any of the six actions can
reach, in each action's program order.  `deployHash` is
`contract.deploymentTransaction()?.hash`; `deployAddress` the address
`getAddress()` reports after confirmation; `parseResult` the
`parseUnits(input, 18)` parse of the user's amount string; the `TxResult`
fields resolve to the submitted transaction's hash. -/
structure ChainEnv where
  getSignerResult : Except JsError Unit
  deployResult : Except JsError Unit
  deployHash : Option String
  deployWaitResult : Except JsError Unit
  deployAddress : String
  ownerResult : Except JsError String
  mintTxResult : Except JsError String
  mintWaitResult : Except JsError Unit
  parseResult : Except JsError Nat
  sendTxResult : Except JsError String
  sendWaitResult : Except JsError Unit
  swapTxResult : Except JsError String
  swapWaitResult : Except JsError Unit
  balanceResult : Except JsError Nat

/-- Result of one action: successor state and issued requests in order. -/
structure ActionResult where
  state : AppState
  rpc : List RpcCall
deriving DecidableEq, Repr

/-- Shared failure exit of every action's catch/finally pair: push the
converted error entry, clear `busy`. -/
def failExit (sb : AppState) (e : JsError) (rpc : List RpcCall) : ActionResult :=
  { state := { sb with logs := errorEntry e :: sb.logs, busy := false }, rpc := rpc }

/-- The deploy success entry for `SimpleNFT`. -/
def nftDeployedEntry (addr : String) : LogItem :=
  { kind := .success
    message := "Deployed SimpleNFT at " ++ addr
    href := some (addressLink addr) }

/-- The deploy success entry for `EscbaseToken`. -/
def tokenDeployedEntry (addr : String) : LogItem :=
  { kind := .success
    message := "Deployed EscbaseToken at " ++ addr
    href := some (addressLink addr) }

/-- The info entry linking the deployment transaction. -/
def deployTxEntry (h : String) : LogItem :=
  { kind := .info, message := "Deployment tx", href := some (txLink h) }

/-- `deployNFT` from the source: gate on a stored provider, set `busy`, get
the signer, submit the creation transaction, wait for deployment, record the
confirmed address, push the success entry and (when the deployment
transaction has a hash) the transaction info entry; any thrown error is
caught and logged; `busy` is cleared in `finally`. -/
def deployNFT (s : AppState) (env : ChainEnv) : ActionResult :=
  if !s.provider then { state := s, rpc := [] }
  else
    let sb : AppState := { s with busy := true }
    match env.getSignerResult with
    | .error e => failExit sb e []
    | .ok _ =>
      match env.deployResult with
      | .error e => failExit sb e [.txSubmit]
      | .ok _ =>
        match env.deployWaitResult with
        | .error e => failExit sb e [.txSubmit]
        | .ok _ =>
          let addr := env.deployAddress
          let s1 : AppState := { sb with deployedNft := some addr }
          let s2 := pushLog s1 (nftDeployedEntry addr)
          let s3 :=
            match env.deployHash with
            | some h => pushLog s2 (deployTxEntry h)
            | none => s2
          { state := { s3 with busy := false }, rpc := [.txSubmit] }

/-- `deployToken` from the source; identical control flow to `deployNFT`
against the `EscbaseToken` artifact and the `token` slot. -/
def deployToken (s : AppState) (env : ChainEnv) : ActionResult :=
  if !s.provider then { state := s, rpc := [] }
  else
    let sb : AppState := { s with busy := true }
    match env.getSignerResult with
    | .error e => failExit sb e []
    | .ok _ =>
      match env.deployResult with
      | .error e => failExit sb e [.txSubmit]
      | .ok _ =>
        match env.deployWaitResult with
        | .error e => failExit sb e [.txSubmit]
        | .ok _ =>
          let addr := env.deployAddress
          let s1 : AppState := { sb with deployedToken := some addr }
          let s2 := pushLog s1 (tokenDeployedEntry addr)
          let s3 :=
            match env.deployHash with
            | some h => pushLog s2 (deployTxEntry h)
            | none => s2
          { state := { s3 with busy := false }, rpc := [.txSubmit] }

/-- The mint success entry for `SimpleNFT`. -/
def nftMintedEntry (h : String) : LogItem :=
  { kind := .success, message := "Minted NFT to owner", href := some (txLink h) }

/-- `mintNft` from the source: gate on provider and a deployed NFT address,
read `owner()`, submit `mint(owner)`, wait one confirmation, log success. -/
def mintNft (s : AppState) (env : ChainEnv) : ActionResult :=
  if !s.provider || s.deployedNft.isNone then { state := s, rpc := [] }
  else
    let sb : AppState := { s with busy := true }
    match env.getSignerResult with
    | .error e => failExit sb e []
    | .ok _ =>
      match env.ownerResult with
      | .error e => failExit sb e [.readCall]
      | .ok _ =>
        match env.mintTxResult with
        | .error e => failExit sb e [.readCall, .txSubmit]
        | .ok h =>
          match env.mintWaitResult with
          | .error e => failExit sb e [.readCall, .txSubmit]
          | .ok _ =>
            { state := { pushLog sb (nftMintedEntry h) with busy := false }
              rpc := [.readCall, .txSubmit] }

/-- The mint success entry for `EscbaseToken`. -/
def tokenMintedEntry (h : String) : LogItem :=
  { kind := .success, message := "Minted 100 ESC to owner", href := some (txLink h) }

/-- `mintToken` from the source: gate on provider and a deployed token
address, read `owner()`, submit `mint(owner, parseUnits('100', 18))`, wait,
log success. -/
def mintToken (s : AppState) (env : ChainEnv) : ActionResult :=
  if !s.provider || s.deployedToken.isNone then { state := s, rpc := [] }
  else
    let sb : AppState := { s with busy := true }
    match env.getSignerResult with
    | .error e => failExit sb e []
    | .ok _ =>
      match env.ownerResult with
      | .error e => failExit sb e [.readCall]
      | .ok _ =>
        match env.mintTxResult with
        | .error e => failExit sb e [.readCall, .txSubmit]
        | .ok h =>
          match env.mintWaitResult with
          | .error e => failExit sb e [.readCall, .txSubmit]
          | .ok _ =>
            { state := { pushLog sb (tokenMintedEntry h) with busy := false }
              rpc := [.readCall, .txSubmit] }

/-- The send success entry, built from the pre-clear recipient and amount. -/
def sentEntry (amount recipient h : String) : LogItem :=
  { kind := .success
    message := "Sent " ++ amount ++ " USDC to " ++ shortAddr recipient
    href := some (txLink h) }

/-- `sendUSDC` from the source: gate on provider and non-empty recipient and
amount, parse the amount, submit the native transfer, wait, log success,
clear the two inputs, then refresh the balance — the refresh still sits
inside the action's try block, so its failure falls into the catch. -/
def sendUSDC (s : AppState) (env : ChainEnv) : ActionResult :=
  if !s.provider || s.sendRecipient == "" || s.sendAmount == "" then
    { state := s, rpc := [] }
  else
    let sb : AppState := { s with busy := true }
    match env.getSignerResult with
    | .error e => failExit sb e []
    | .ok _ =>
      match env.parseResult with
      | .error e => failExit sb e []
      | .ok _ =>
        match env.sendTxResult with
        | .error e => failExit sb e [.txSubmit]
        | .ok h =>
          match env.sendWaitResult with
          | .error e => failExit sb e [.txSubmit]
          | .ok _ =>
            let s1 := pushLog sb (sentEntry s.sendAmount s.sendRecipient h)
            let s2 : AppState := { s1 with sendRecipient := "", sendAmount := "" }
            match env.balanceResult with
            | .ok bal =>
              { state := { s2 with nativeBalance := formatUnits18 bal, busy := false }
                rpc := [.txSubmit, .readCall] }
            | .error e => failExit s2 e [.txSubmit, .readCall]

/-- The client-side exchange computation from `swapUSDCtoESC`:
`usdcAmount * BigInt(100000)`, exact integer arithmetic. -/
def swapEscAmount (usdcAmount : Nat) : Nat :=
  usdcAmount * 100000

/-- The swap success entry, built from the pre-clear input string, the parsed
amount and the transaction hash. -/
def swappedEntry (amountStr : String) (usdcAmount : Nat) (h : String) : LogItem :=
  { kind := .success
    message := "Swapped " ++ amountStr ++ " USDC to "
      ++ formatUnits18 (swapEscAmount usdcAmount) ++ " ESC"
    href := some (txLink h) }

/-- `swapUSDCtoESC` from the source: gate on provider, a deployed token and a
non-empty amount, parse the amount, submit `swap({ value })`, wait, compute
the displayed minted amount client-side, log success, clear the input, then
refresh the balance inside the same try block. -/
def swapUSDCtoESC (s : AppState) (env : ChainEnv) : ActionResult :=
  if !s.provider || s.deployedToken.isNone || s.swapAmount == "" then
    { state := s, rpc := [] }
  else
    let sb : AppState := { s with busy := true }
    match env.getSignerResult with
    | .error e => failExit sb e []
    | .ok _ =>
      match env.parseResult with
      | .error e => failExit sb e []
      | .ok usdcAmount =>
        match env.swapTxResult with
        | .error e => failExit sb e [.txSubmit]
        | .ok h =>
          match env.swapWaitResult with
          | .error e => failExit sb e [.txSubmit]
          | .ok _ =>
            let s1 := pushLog sb (swappedEntry s.swapAmount usdcAmount h)
            let s2 : AppState := { s1 with swapAmount := "" }
            match env.balanceResult with
            | .ok bal =>
              { state := { s2 with nativeBalance := formatUnits18 bal, busy := false }
                rpc := [.txSubmit, .readCall] }
            | .error e => failExit s2 e [.txSubmit, .readCall]

/-- The six busy-gated user actions. -/
inductive ActionKind
  | deployNFT
  | deployToken
  | mintNft
  | mintToken
  | sendUSDC
  | swapUSDCtoESC
deriving DecidableEq, Repr

/-- Dispatch an action to its handler. -/
def runAction : ActionKind → AppState → ChainEnv → ActionResult
  | .deployNFT => deployNFT
  | .deployToken => deployToken
  | .mintNft => mintNft
  | .mintToken => mintToken
  | .sendUSDC => sendUSDC
  | .swapUSDCtoESC => swapUSDCtoESC

/-- The `disabled` condition of each action's button in the rendered markup —
the entry point through which a user triggers the action.  Every one of them
includes `busy`. -/
def actionDisabled (k : ActionKind) (s : AppState) : Bool :=
  match k with
  | .deployNFT => !s.provider || s.busy
  | .deployToken => !s.provider || s.busy
  | .mintNft => !s.provider || s.deployedNft.isNone || s.busy
  | .mintToken => !s.provider || s.deployedToken.isNone || s.busy
  | .sendUSDC => !s.provider || s.sendRecipient == "" || s.sendAmount == "" || s.busy
  | .swapUSDCtoESC =>
    !s.provider || s.deployedToken.isNone || s.swapAmount == "" || s.busy

/-- A user trigger: a disabled button fires nothing (and nothing is queued);
otherwise the click handler runs the action. -/
def trigger (k : ActionKind) (s : AppState) (env : ChainEnv) : ActionResult :=
  if actionDisabled k s then { state := s, rpc := [] } else runAction k s env

namespace EscbaseToken

/-- `SWAP_RATE` constant of the `EscbaseToken` contract. -/
def SWAP_RATE : Nat := 100000

/-- The contract's `swap()` body: `require(msg.value > 0)` then mint
`msg.value * SWAP_RATE` to the caller.  `none` models a revert, both of the
`require` and of the pragma ^0.8.20 checked multiplication, which reverts
when the product leaves the uint256 domain instead of wrapping. -/
def swap (msgValue : Nat) : Option Nat :=
  if msgValue = 0 then none
  else if msgValue * SWAP_RATE < 2 ^ 256 then some (msgValue * SWAP_RATE)
  else none

end EscbaseToken

/-- Whether an awaited step resolved. -/
def exOk {α : Type} : Except JsError α → Bool
  | .ok _ => true
  | .error _ => false

/-- The deployment flow reached confirmation: signer obtained, creation
transaction submitted, and `waitForDeployment` resolved. -/
def deployConfirmedB (env : ChainEnv) : Bool :=
  exOk env.getSignerResult && exOk env.deployResult && exOk env.deployWaitResult

/-- The rejection an awaited step rejected with, if it did. -/
def firstErrOf {α : Type} : Except JsError α → Option JsError
  | .error e => some e
  | .ok _ => none

/-- Left-biased choice of the earlier error. -/
def orE (a b : Option JsError) : Option JsError :=
  match a with
  | some e => some e
  | none => b

/-- The first error an action's try block hits, following each action's
program order of awaited steps; `none` when the whole block resolves. -/
def actionFirstError : ActionKind → ChainEnv → Option JsError
  | .deployNFT, env =>
    orE (firstErrOf env.getSignerResult)
      (orE (firstErrOf env.deployResult) (firstErrOf env.deployWaitResult))
  | .deployToken, env =>
    orE (firstErrOf env.getSignerResult)
      (orE (firstErrOf env.deployResult) (firstErrOf env.deployWaitResult))
  | .mintNft, env =>
    orE (firstErrOf env.getSignerResult)
      (orE (firstErrOf env.ownerResult)
        (orE (firstErrOf env.mintTxResult) (firstErrOf env.mintWaitResult)))
  | .mintToken, env =>
    orE (firstErrOf env.getSignerResult)
      (orE (firstErrOf env.ownerResult)
        (orE (firstErrOf env.mintTxResult) (firstErrOf env.mintWaitResult)))
  | .sendUSDC, env =>
    orE (firstErrOf env.getSignerResult)
      (orE (firstErrOf env.parseResult)
        (orE (firstErrOf env.sendTxResult)
          (orE (firstErrOf env.sendWaitResult) (firstErrOf env.balanceResult))))
  | .swapUSDCtoESC, env =>
    orE (firstErrOf env.getSignerResult)
      (orE (firstErrOf env.parseResult)
        (orE (firstErrOf env.swapTxResult)
          (orE (firstErrOf env.swapWaitResult) (firstErrOf env.balanceResult))))

/-- Each action function's own early-return guard (the checks at the top of
the handler, before `setBusy`), as found in the source. -/
def actionGuardB : ActionKind → AppState → Bool
  | .deployNFT, s => s.provider
  | .deployToken, s => s.provider
  | .mintNft, s => s.provider && !s.deployedNft.isNone
  | .mintToken, s => s.provider && !s.deployedToken.isNone
  | .sendUSDC, s => s.provider && !(s.sendRecipient == "") && !(s.sendAmount == "")
  | .swapUSDCtoESC, s =>
    s.provider && !s.deployedToken.isNone && !(s.swapAmount == "")

/-- The application state together with the injected wallet's active chain.
No action handler reads or writes the active chain: the source consults the
network only inside `ensureArcNetwork`, which no action calls, so an action
step leaves the wallet chain untouched and cannot depend on it. -/
structure World where
  app : AppState
  walletChainId : String

/-- Run an action in a world: the wallet's active chain is carried along
unread, exactly as in the source handlers. -/
def runActionW (k : ActionKind) (w : World) (env : ChainEnv) :
    World × List RpcCall :=
  let r := runAction k w.app env
  ({ app := r.state, walletChainId := w.walletChainId }, r.rpc)

/-! ## Concrete fixtures for witnesses and counterexamples -/

/-- The initial React state: nothing connected, everything empty. -/
def initState : AppState :=
  { provider := false, signerAddress := "", busy := false, deployedNft := none
    deployedToken := none, logs := [], nativeBalance := "", sendRecipient := ""
    sendAmount := "", swapAmount := "" }

/-- A connected, idle state. -/
def connState : AppState := { initState with provider := true }

/-- A connected state while an operation is in flight. -/
def busyState : AppState := { connState with provider := true, busy := true }

/-- A connected state with the send inputs filled in. -/
def sendState : AppState :=
  { connState with sendRecipient := "0xCAFE00000000000000000000000000000000BEEF"
                   sendAmount := "1" }

/-- A connected state with a deployed token and a swap amount filled in. -/
def swapState : AppState :=
  { connState with deployedToken := some "0xAAA", swapAmount := "2" }

/-- An environment in which every awaited chain step resolves. -/
def okEnv : ChainEnv :=
  { getSignerResult := .ok ()
    deployResult := .ok ()
    deployHash := some "0xD1"
    deployWaitResult := .ok ()
    deployAddress := "0xAAA"
    ownerResult := .ok "0xOwner"
    mintTxResult := .ok "0xM1"
    mintWaitResult := .ok ()
    parseResult := .ok 1000000000000000000
    sendTxResult := .ok "0xS1"
    sendWaitResult := .ok ()
    swapTxResult := .ok "0xW1"
    swapWaitResult := .ok ()
    balanceResult := .ok 5000000000000000000 }

/-- A generic thrown error. -/
def someErr : JsError :=
  { code := none, message := some "boom", shortMessage := none
    stringRepr := "Error: boom" }

/-- The MetaMask user-rejection error (code 4001). -/
def rejErr : JsError :=
  { code := some 4001, message := some "User rejected the request."
    shortMessage := none, stringRepr := "Error" }

/-- The provider's unrecognized-chain error (code 4902). -/
def unrecognizedErr : JsError :=
  { code := some 4902, message := some "Unrecognized chain ID"
    shortMessage := none, stringRepr := "Error" }

/-- A failing balance read. -/
def balErr : JsError :=
  { code := none, message := some "network down", shortMessage := none
    stringRepr := "Error" }

/-- Environment whose signer retrieval rejects. -/
def envSigFail : ChainEnv := { okEnv with getSignerResult := .error someErr }

/-- Environment in which everything resolves except the balance read. -/
def envBalFail : ChainEnv := { okEnv with balanceResult := .error balErr }

/-- Environment whose deployment submission rejects. -/
def envDeployFail : ChainEnv := { okEnv with deployResult := .error someErr }

/-- Reconciler steps where the wallet is already on Arc (upper-case id) and
every mutating request would reject if it were ever issued. -/
def netMatchCaseEnv : NetEnv :=
  { chainIdResult := .ok "0x4CEF52"
    switchResult1 := .error someErr
    addResult := .error someErr
    switchResult2 := .error someErr }

/-- Reconciler steps where the wallet is elsewhere, the first switch reports
the chain unrecognized, and the add and retry resolve. -/
def netUnrecognizedEnv : NetEnv :=
  { chainIdResult := .ok "0x1"
    switchResult1 := .error unrecognizedErr
    addResult := .ok ()
    switchResult2 := .ok () }

/-- Steps where every part of the reconciliation resolves at once. -/
def netOkEnv : NetEnv :=
  { chainIdResult := .ok "0x4cef52"
    switchResult1 := .ok ()
    addResult := .ok ()
    switchResult2 := .ok () }

/-- A connect flow whose authorization prompt is rejected by the user. -/
def cenvRejected : ConnectEnv :=
  { hasEthereum := true
    requestAccountsResult := .error rejErr
    net := netOkEnv
    getSignerResult := .ok ()
    getAddressResult := .ok "0xSigner"
    balanceResult := .ok 0 }

/-- A connect flow that succeeds except for the balance read. -/
def cenvBalFail : ConnectEnv :=
  { hasEthereum := true
    requestAccountsResult := .ok ()
    net := netOkEnv
    getSignerResult := .ok ()
    getAddressResult := .ok "0xSigner"
    balanceResult := .error balErr }

/-! ## Helper lemmas -/

/-- A reconciliation that reports success pushed no log entry. -/
theorem ensure_ok_logAdds (env : NetEnv)
    (h : (ensureArcNetwork env).ok = true) :
    (ensureArcNetwork env).logAdds = [] := by
  unfold ensureArcNetwork at *
  cases hc : env.chainIdResult with
  | error e => simp [hc] at h
  | ok current =>
    by_cases hm : lowerStr current = ARC_CHAIN_ID_HEX
    · simp [hc, hm]
    · cases hs : env.switchResult1 with
      | ok u => simp [hc, hm, hs]
      | error err =>
        by_cases hu : isUnrecognizedChainErr err = true
        · cases ha : env.addResult with
          | ok u =>
            cases hs2 : env.switchResult2 with
            | ok v => simp [hc, hm, hs, hu, ha, hs2]
            | error e2 => simp [hc, hm, hs, hu, ha, hs2] at h
          | error e3 => simp [hc, hm, hs, hu, ha] at h
        · simp [hc, hm, hs, hu] at h

/-- When reconciliation fails, `connect` never stores the provider. -/
theorem connect_provider_of_not_ok (s : AppState) (env : ConnectEnv)
    (h : (ensureArcNetwork env.net).ok = false) :
    (connect s env).state.provider = s.provider := by
  cases he : env.hasEthereum <;>
    cases hra : env.requestAccountsResult <;>
      simp [connect, he, hra, h]

/-- The converted error message never exceeds 181 characters. -/
theorem truncateMsg_length_le (m : String) : (truncateMsg m).length ≤ 181 := by
  unfold truncateMsg
  split
  · have h1 : (String.mk (m.data.take 180) ++ "…").length =
        (m.data.take 180).length + 1 := by
      show ((m.data.take 180) ++ "…".data).length = (m.data.take 180).length + 1
      rw [List.length_append]
      rfl
    have h2 : (m.data.take 180).length ≤ 180 := by
      simp [List.length_take]
    omega
  · next hle =>
    omega

/-! ## Claim theorems -/

/-- C2: for every one of the six actions, a user trigger arriving while
`busy = true` hits a disabled button: the state (hence the activity log) is
unchanged, the issued request list is empty, and nothing is queued — the
trigger's entire effect is the unchanged state. -/
theorem C2_busy_noop (k : ActionKind) (s : AppState) (env : ChainEnv)
    (h : s.busy = true) :
    trigger k s env = { state := s, rpc := [] } := by
  cases k <;> simp [trigger, actionDisabled, h]

theorem C2_busy_noop_witness :
    busyState.busy = true ∧
    trigger ActionKind.sendUSDC busyState okEnv = { state := busyState, rpc := [] } :=
  ⟨rfl, C2_busy_noop ActionKind.sendUSDC busyState okEnv rfl⟩

/-- C3: for each contract kind, the deploy action leaves the deployed-address
entry equal to the confirmed deployment's address exactly when the session
exists and the deployment flow reached confirmation, and leaves it untouched
otherwise — so a failure never records anything and a recorded entry is never
a speculative address. -/
theorem C3_deploy_iff_confirmed (s : AppState) (env : ChainEnv) :
    ((deployNFT s env).state.deployedNft =
      if s.provider && deployConfirmedB env then some env.deployAddress
      else s.deployedNft) ∧
    ((deployToken s env).state.deployedToken =
      if s.provider && deployConfirmedB env then some env.deployAddress
      else s.deployedToken) := by
  cases hp : s.provider <;>
    cases hg : env.getSignerResult <;>
      cases hd : env.deployResult <;>
        cases hw : env.deployWaitResult <;>
          cases hh : env.deployHash <;>
            simp [deployNFT, deployToken, deployConfirmedB, exOk, failExit,
              pushLog, hp, hg, hd, hw, hh]

/-- C6: when the chain-id read reports an id equal to the target after
lower-casing, reconciliation succeeds, the only provider request is that
side-effect-free read (in particular no switch-network and no add-network
request is issued), and no log entry is pushed. -/
theorem C6_reconcile_match (env : NetEnv) (cur : String)
    (hc : env.chainIdResult = .ok cur)
    (hm : lowerStr cur = ARC_CHAIN_ID_HEX) :
    (ensureArcNetwork env).ok = true ∧
    (ensureArcNetwork env).rpc = [RpcCall.chainIdRead] ∧
    (ensureArcNetwork env).logAdds = [] := by
  simp [ensureArcNetwork, hc, hm]

theorem C6_reconcile_match_witness :
    netMatchCaseEnv.chainIdResult = .ok "0x4CEF52" ∧
    ((ensureArcNetwork netMatchCaseEnv).ok = true ∧
      (ensureArcNetwork netMatchCaseEnv).rpc = [RpcCall.chainIdRead] ∧
      (ensureArcNetwork netMatchCaseEnv).logAdds = []) :=
  ⟨rfl, C6_reconcile_match netMatchCaseEnv "0x4CEF52" rfl (by decide)⟩

/-- C7: when the current chain differs and the first switch request rejects
with the provider's unrecognized-chain error, the reconciler issues exactly
one add-network request — carrying the full `ARC_PARAMS` descriptor — and at
most one retry switch; when the add resolves, the full request trace is the
read, the first switch, the single add and the single retry, whatever the
retry's outcome, so no further retries ever occur. -/
theorem C7_unrecognized_single_retry (env : NetEnv) (cur : String) (err : JsError)
    (hc : env.chainIdResult = .ok cur)
    (hm : ¬ lowerStr cur = ARC_CHAIN_ID_HEX)
    (hs : env.switchResult1 = .error err)
    (hu : isUnrecognizedChainErr err = true) :
    (ensureArcNetwork env).rpc.count (RpcCall.addChain ARC_PARAMS) = 1 ∧
    (ensureArcNetwork env).rpc.count (RpcCall.switchChain ARC_CHAIN_ID_HEX) ≤ 2 ∧
    (env.addResult = .ok () →
      (ensureArcNetwork env).rpc =
        [RpcCall.chainIdRead, RpcCall.switchChain ARC_CHAIN_ID_HEX,
         RpcCall.addChain ARC_PARAMS, RpcCall.switchChain ARC_CHAIN_ID_HEX]) := by
  cases ha : env.addResult with
  | error e3 =>
    refine ⟨?_, ?_, ?_⟩ <;>
      simp [ensureArcNetwork, hc, hm, hs, hu, ha]
  | ok u =>
    cases hs2 : env.switchResult2 <;>
      refine ⟨?_, ?_, ?_⟩ <;>
        simp [ensureArcNetwork, hc, hm, hs, hu, ha, hs2]

theorem C7_unrecognized_single_retry_witness :
    netUnrecognizedEnv.switchResult1 = .error unrecognizedErr ∧
    (ensureArcNetwork netUnrecognizedEnv).rpc =
      [RpcCall.chainIdRead, RpcCall.switchChain ARC_CHAIN_ID_HEX,
       RpcCall.addChain ARC_PARAMS, RpcCall.switchChain ARC_CHAIN_ID_HEX] :=
  ⟨rfl,
    (C7_unrecognized_single_retry netUnrecognizedEnv "0x1" unrecognizedErr rfl
      (by decide) rfl (by decide)).2.2 rfl⟩

/-- C10: a successful deploy of either contract whose creation transaction
has a hash appends exactly two entries — the success entry with the address
link first, then the info entry with the transaction link — leaving the info
entry at the head of the log, in front of the success entry. -/
theorem C10_deploy_two_entries (s : AppState) (env : ChainEnv) (h : String)
    (hprov : s.provider = true)
    (hsig : env.getSignerResult = .ok ())
    (hd : env.deployResult = .ok ())
    (hw : env.deployWaitResult = .ok ())
    (hh : env.deployHash = some h) :
    (deployNFT s env).state.logs =
      deployTxEntry h :: nftDeployedEntry env.deployAddress :: s.logs ∧
    (deployToken s env).state.logs =
      deployTxEntry h :: tokenDeployedEntry env.deployAddress :: s.logs := by
  constructor <;>
    simp [deployNFT, deployToken, hprov, hsig, hd, hw, hh, pushLog]

theorem C10_deploy_two_entries_witness :
    (deployNFT connState okEnv).state.logs =
      [deployTxEntry "0xD1", nftDeployedEntry "0xAAA"] ∧
    (deployToken connState okEnv).state.logs =
      [deployTxEntry "0xD1", tokenDeployedEntry "0xAAA"] :=
  C10_deploy_two_entries connState okEnv "0xD1" rfl rfl rfl rfl rfl

/-- C8: in a successful swap run with parsed input amount `A` (native
smallest units), the logged success entry displays the client-side product
`A * 100000` computed exactly in unbounded integer arithmetic; that client
constant coincides with the contract's `SWAP_RATE`, which equals 100000, and
the contract's own swap mints exactly `msg.value * SWAP_RATE` whenever that
checked product stays inside the uint256 domain (otherwise it reverts). -/
theorem C8_swap_displayed_exact (s : AppState) (env : ChainEnv) (A : Nat)
    (h : String)
    (hprov : s.provider = true)
    (htok : s.deployedToken.isNone = false)
    (hamt : ¬ s.swapAmount = "")
    (hsig : env.getSignerResult = .ok ())
    (hp : env.parseResult = .ok A)
    (ht : env.swapTxResult = .ok h)
    (hw : env.swapWaitResult = .ok ()) :
    swappedEntry s.swapAmount A h ∈ (swapUSDCtoESC s env).state.logs ∧
    swapEscAmount A = A * EscbaseToken.SWAP_RATE ∧
    EscbaseToken.SWAP_RATE = 100000 ∧
    (0 < A → A * EscbaseToken.SWAP_RATE < 2 ^ 256 →
      EscbaseToken.swap A = some (A * EscbaseToken.SWAP_RATE)) := by
  refine ⟨?_, rfl, rfl, ?_⟩
  · cases hb : env.balanceResult <;>
      simp [swapUSDCtoESC, hprov, htok, hamt, hsig, hp, ht, hw, hb, pushLog,
        failExit]
  · intro hA hB
    unfold EscbaseToken.swap
    rw [if_neg (Nat.pos_iff_ne_zero.mp hA), if_pos hB]

theorem C8_swap_displayed_exact_witness :
    swappedEntry "2" 1000000000000000000 "0xW1" ∈
      (swapUSDCtoESC swapState okEnv).state.logs ∧
    swapEscAmount 1000000000000000000 =
      1000000000000000000 * EscbaseToken.SWAP_RATE :=
  ⟨(C8_swap_displayed_exact swapState okEnv 1000000000000000000 "0xW1" rfl rfl
      (by decide) rfl rfl rfl rfl).1,
   (C8_swap_displayed_exact swapState okEnv 1000000000000000000 "0xW1" rfl rfl
      (by decide) rfl rfl rfl rfl).2.1⟩

/-- C1 is refuted on the code: in a connected state whose wallet sits on
chain `0x1`, not the Arc target, the deploy action issues its chain request
anyway — its request trace is exactly the deployment submission, containing
no chain-id read, no switch and no add, so no network reconciliation happens
in the action's flow and nothing short-circuits on the mismatch. -/
theorem C1_counterexample :
    ("0x1" : String) ≠ ARC_CHAIN_ID_HEX ∧
    (runActionW ActionKind.deployNFT
        { app := connState, walletChainId := "0x1" } okEnv).2 =
      [RpcCall.txSubmit] := by
  constructor
  · decide
  · decide

/-- C1 amended: the network-on-target precondition is established once, by
the connect flow — an action runs only when a session (stored provider)
exists, any action invoked without one is a strict no-op with no request
issued, and the connect flow stores the provider only if it was already
stored or network reconciliation succeeded.  The actions themselves never
re-check the active network. -/
theorem C1_session_gate :
    (∀ k s env, s.provider = false →
      runAction k s env = { state := s, rpc := [] }) ∧
    (∀ s env, (connect s env).state.provider = true →
      s.provider = true ∨ (ensureArcNetwork env.net).ok = true) := by
  constructor
  · intro k s env h
    cases k <;>
      simp [runAction, deployNFT, deployToken, mintNft, mintToken, sendUSDC,
        swapUSDCtoESC, h]
  · intro s env h
    by_cases hok : (ensureArcNetwork env.net).ok = true
    · exact Or.inr hok
    · have hno : (ensureArcNetwork env.net).ok = false := by
        cases hval : (ensureArcNetwork env.net).ok
        · rfl
        · exact absurd hval hok
      rw [connect_provider_of_not_ok s env hno] at h
      exact Or.inl h

theorem C1_session_gate_witness :
    initState.provider = false ∧
    runAction ActionKind.deployNFT initState okEnv =
      { state := initState, rpc := [] } :=
  ⟨rfl, C1_session_gate.1 ActionKind.deployNFT initState okEnv rfl⟩

/-- C4 is refuted on the code: after a successful token deploy (whose
creation transaction has a hash) followed by a successful token mint, the
log's second entry is the deployment-transaction info entry, not the deploy
success entry — the deploy success entry sits third. -/
theorem C4_counterexample :
    ((mintToken (deployToken connState okEnv).state okEnv).state.logs.map
        LogItem.message =
      ["Minted 100 ESC to owner", "Deployment tx",
       "Deployed EscbaseToken at 0xAAA"]) ∧
    ((mintToken (deployToken connState okEnv).state okEnv).state.logs.get? 1 ≠
      some (tokenDeployedEntry "0xAAA")) := by
  decide

/-- C4 amended: in the deploy-token-then-mint-token success run the head is
the mint success entry; the deploy success entry is second only when the
deployment transaction had no hash — when it has one (the normal case) the
second entry is the deployment-transaction info entry and the deploy success
entry is third. -/
theorem C4_log_order (s : AppState) (envD envM : ChainEnv) (h hm : String)
    (hprov : s.provider = true)
    (hsig : envD.getSignerResult = .ok ())
    (hd : envD.deployResult = .ok ())
    (hw : envD.deployWaitResult = .ok ())
    (hsig2 : envM.getSignerResult = .ok ())
    (howner : exOk envM.ownerResult = true)
    (hmt : envM.mintTxResult = .ok hm)
    (hmw : envM.mintWaitResult = .ok ()) :
    (envD.deployHash = some h →
      (mintToken (deployToken s envD).state envM).state.logs =
        tokenMintedEntry hm :: deployTxEntry h ::
          tokenDeployedEntry envD.deployAddress :: s.logs) ∧
    (envD.deployHash = none →
      (mintToken (deployToken s envD).state envM).state.logs =
        tokenMintedEntry hm :: tokenDeployedEntry envD.deployAddress ::
          s.logs) := by
  cases ho : envM.ownerResult with
  | error e => simp [exOk, ho] at howner
  | ok owner =>
    constructor <;> intro hh <;>
      simp [deployToken, mintToken, hprov, hsig, hd, hw, hh, hsig2, ho, hmt,
        hmw, pushLog]

theorem C4_log_order_witness :
    (mintToken (deployToken connState okEnv).state okEnv).state.logs =
      [tokenMintedEntry "0xM1", deployTxEntry "0xD1",
       tokenDeployedEntry "0xAAA"] :=
  (C4_log_order connState okEnv okEnv "0xD1" "0xM1" rfl rfl rfl rfl rfl rfl
    rfl rfl).1 rfl

/-- C5 is refuted on the code: the connect action's authorization request is
awaited outside any try/catch, so the user's rejection escapes the action
uncaught and no entry is appended to the log — the state is untouched. -/
theorem C5_counterexample :
    (connect initState cenvRejected).uncaught = some rejErr ∧
    (connect initState cenvRejected).state = initState := by
  constructor
  · rfl
  · rfl

/-- C5 amended: every error raised inside the try block of the six
busy-gated actions is caught at that action's boundary, converted by
`getErrorMessage` to a single message of at most 181 characters, and pushed
onto the activity log as the newest entry; but in the connect action the
authorization request is not protected — its rejection escapes uncaught with
the log unchanged. -/
theorem C5_action_boundary :
    (∀ e, (getErrorMessage e).length ≤ 181) ∧
    (∀ k s env e, actionGuardB k s = true → actionFirstError k env = some e →
      (runAction k s env).state.logs.head? = some (errorEntry e)) ∧
    (∀ s env e, env.hasEthereum = true →
      env.requestAccountsResult = .error e →
      (connect s env).uncaught = some e ∧
        (connect s env).state.logs = s.logs) := by
  refine ⟨?_, ?_, ?_⟩
  · intro e
    cases e with
    | none => decide
    | some err =>
      simp only [getErrorMessage]
      split
      · decide
      · exact truncateMsg_length_le _
  · intro k s env e hg hf
    cases k with
    | deployNFT =>
      simp only [actionGuardB] at hg
      cases h1 : env.getSignerResult <;> cases h2 : env.deployResult <;>
        cases h3 : env.deployWaitResult <;>
          simp [actionFirstError, orE, firstErrOf, h1, h2, h3] at hf <;>
          simp [runAction, deployNFT, failExit, hg, h1, h2, h3, hf]
    | deployToken =>
      simp only [actionGuardB] at hg
      cases h1 : env.getSignerResult <;> cases h2 : env.deployResult <;>
        cases h3 : env.deployWaitResult <;>
          simp [actionFirstError, orE, firstErrOf, h1, h2, h3] at hf <;>
          simp [runAction, deployToken, failExit, hg, h1, h2, h3, hf]
    | mintNft =>
      simp [actionGuardB, Option.isSome_iff_ne_none] at hg
      cases h1 : env.getSignerResult <;> cases h2 : env.ownerResult <;>
        cases h3 : env.mintTxResult <;> cases h4 : env.mintWaitResult <;>
          simp [actionFirstError, orE, firstErrOf, h1, h2, h3, h4] at hf <;>
          simp [runAction, mintNft, failExit, hg, h1, h2, h3, h4, hf]
    | mintToken =>
      simp [actionGuardB, Option.isSome_iff_ne_none] at hg
      cases h1 : env.getSignerResult <;> cases h2 : env.ownerResult <;>
        cases h3 : env.mintTxResult <;> cases h4 : env.mintWaitResult <;>
          simp [actionFirstError, orE, firstErrOf, h1, h2, h3, h4] at hf <;>
          simp [runAction, mintToken, failExit, hg, h1, h2, h3, h4, hf]
    | sendUSDC =>
      simp [actionGuardB, Option.isSome_iff_ne_none] at hg
      cases h1 : env.getSignerResult <;> cases h2 : env.parseResult <;>
        cases h3 : env.sendTxResult <;> cases h4 : env.sendWaitResult <;>
          cases h5 : env.balanceResult <;>
            simp [actionFirstError, orE, firstErrOf, h1, h2, h3, h4, h5]
              at hf <;>
            simp [runAction, sendUSDC, failExit, hg, h1, h2, h3,
              h4, h5, hf, pushLog]
    | swapUSDCtoESC =>
      simp [actionGuardB, Option.isSome_iff_ne_none] at hg
      cases h1 : env.getSignerResult <;> cases h2 : env.parseResult <;>
        cases h3 : env.swapTxResult <;> cases h4 : env.swapWaitResult <;>
          cases h5 : env.balanceResult <;>
            simp [actionFirstError, orE, firstErrOf, h1, h2, h3, h4, h5]
              at hf <;>
            simp [runAction, swapUSDCtoESC, failExit, hg, h1, h2,
              h3, h4, h5, hf, pushLog]
  · intro s env e he hra
    constructor <;> simp [connect, he, hra]

theorem C5_action_boundary_witness :
    actionFirstError ActionKind.deployNFT envSigFail = some someErr ∧
    (runAction ActionKind.deployNFT connState envSigFail).state.logs.head? =
      some (errorEntry someErr) :=
  ⟨rfl,
    C5_action_boundary.2.1 ActionKind.deployNFT connState envSigFail someErr
      rfl rfl⟩

/-- C9 is refuted on the code: in `sendUSDC` the post-success balance refresh
sits inside the action's try block, so its failure is caught by the action's
error handler and appends an error entry to the log — here the run leaves an
error entry at the head on top of the send success entry. -/
theorem C9_counterexample :
    ((sendUSDC sendState envBalFail).state.logs.map LogItem.kind =
      [LogKind.error, LogKind.success]) ∧
    (sendUSDC sendState envBalFail).state.logs.length =
      sendState.logs.length + 2 := by
  constructor
  · decide
  · decide

/-- C9 amended: a native-balance read failure never aborts the transaction
work of the enclosing action and always leaves the displayed balance
unchanged.  In connect the failure is swallowed with no log entry and the
success entry still lands.  In send (and symmetrically swap) the
post-success refresh failure leaves the already-pushed success entry in
place but, being inside the try block, additionally appends an error
entry. -/
theorem C9_balance_read :
    (∀ s env e addr,
      env.hasEthereum = true → env.requestAccountsResult = .ok () →
      (ensureArcNetwork env.net).ok = true →
      env.getSignerResult = .ok () → env.getAddressResult = .ok addr →
      env.balanceResult = .error e →
      (connect s env).state.logs = connectedEntry :: s.logs ∧
        (connect s env).state.nativeBalance = s.nativeBalance ∧
        (connect s env).uncaught = none) ∧
    (∀ s env e h A,
      s.provider = true → ¬ s.sendRecipient = "" → ¬ s.sendAmount = "" →
      env.getSignerResult = .ok () → env.parseResult = .ok A →
      env.sendTxResult = .ok h → env.sendWaitResult = .ok () →
      env.balanceResult = .error e →
      (sendUSDC s env).state.logs =
          errorEntry e :: sentEntry s.sendAmount s.sendRecipient h :: s.logs ∧
        (sendUSDC s env).state.nativeBalance = s.nativeBalance ∧
        (sendUSDC s env).state.busy = false) ∧
    (∀ s env e h A,
      s.provider = true → s.deployedToken.isNone = false →
      ¬ s.swapAmount = "" →
      env.getSignerResult = .ok () → env.parseResult = .ok A →
      env.swapTxResult = .ok h → env.swapWaitResult = .ok () →
      env.balanceResult = .error e →
      (swapUSDCtoESC s env).state.logs =
          errorEntry e :: swappedEntry s.swapAmount A h :: s.logs ∧
        (swapUSDCtoESC s env).state.nativeBalance = s.nativeBalance ∧
        (swapUSDCtoESC s env).state.busy = false) := by
  refine ⟨?_, ?_, ?_⟩
  · intro s env e addr he hra hok hsig haddr hbal
    refine ⟨?_, ?_, ?_⟩ <;>
      simp [connect, he, hra, hok, hsig, haddr, hbal, pushLog,
        ensure_ok_logAdds env.net hok]
  · intro s env e h A hprov hr ha hsig hp ht hw hbal
    refine ⟨?_, ?_, ?_⟩ <;>
      simp [sendUSDC, hprov, hr, ha, hsig, hp, ht, hw, hbal, pushLog,
        failExit]
  · intro s env e h A hprov htok ha hsig hp ht hw hbal
    refine ⟨?_, ?_, ?_⟩ <;>
      simp [swapUSDCtoESC, hprov, htok, ha, hsig, hp, ht, hw, hbal, pushLog,
        failExit]

theorem C9_balance_read_witness :
    (sendUSDC sendState envBalFail).state.logs =
      [errorEntry balErr,
       sentEntry "1" "0xCAFE00000000000000000000000000000000BEEF" "0xS1"] ∧
    (sendUSDC sendState envBalFail).state.nativeBalance =
      sendState.nativeBalance ∧
    (sendUSDC sendState envBalFail).state.busy = false :=
  C9_balance_read.2.1 sendState envBalFail balErr "0xS1" 1000000000000000000
    rfl (by decide) (by decide) rfl rfl rfl rfl rfl

